import Mathlib

/-!
# The interpreter bootstrap of `emscripten/interpreter/main.c`

The translation unit has two functions, `initialize_python` and `main`, and one
statement macro, `FAIL_IF_STATUS_EXCEPTION`.  Everything else it touches is the
CPython embedding interface (`Python.h`) and the Emscripten runtime
(`emscripten.h`).  Those collaborators are not part of the program: they are a
parameter `rt : Runtime Status Rest` of the model, and every call made to them
is recorded, with its arguments, in the trace of the run.

* `PyStatus` is kept abstract (the type parameter `Status`); the program only
  ever hands a status to `PyStatus_Exception` and `Py_ExitStatusException`.
* `PyConfig` is a record with the two fields the program names, `home` and
  `write_bytecode`, and one field `rest` standing for all the others.
* The automatic variables `status` and `config` are declared without an
  initialiser; their indeterminate content on entry is the parameter
  `stack : Indeterminate Status Rest`.
-/

namespace Interpreter

/-! ## Data -/

/-- The structure `PyConfig` of `Python.h`, as far as the program sees it:
`home` (a `wchar_t*`, `none` for `NULL`), `write_bytecode` (an `int`) and all
the remaining fields together as `rest`. -/
structure PyConfig (Rest : Type) where
  home : Option String
  write_bytecode : Int
  rest : Rest
  deriving DecidableEq

/-- One call from the program into the CPython or Emscripten interface,
with the arguments of the call.  `PyConfig_SetBytesString config str` is the
call `PyConfig_SetBytesString(&config, &config.home, str)`: the target field is
always `home`. -/
inductive Call (Status Rest : Type) where
  | PyConfig_InitPythonConfig
  | PyConfig_SetBytesString (config : PyConfig Rest) (str : String)
  | PyStatus_Exception (status : Status)
  | Py_InitializeFromConfig (config : PyConfig Rest)
  | PyConfig_Clear (config : PyConfig Rest)
  | Py_ExitStatusException (status : Status)
  | emscripten_exit_with_live_runtime
  deriving DecidableEq

/-- The answers of the external collaborators.

* `PyConfig_InitPythonConfig`: the configuration written into `*config`.  The
  program passes the address of an uninitialised automatic variable, so the
  answer cannot depend on what was there.
* `PyConfig_SetBytesString config str`: the status returned, and the content
  of the target field `config.home` after the call.
* `PyStatus_Exception status`: the `int` returned.
* `Py_InitializeFromConfig config`: the status returned.
* `Py_ExitStatusException status`: the function is declared without return
  (the source: "This will exit()"); the answer is the exit status with which
  it ends the process. -/
structure Runtime (Status Rest : Type) where
  PyConfig_InitPythonConfig : PyConfig Rest
  PyConfig_SetBytesString : PyConfig Rest → String → Status × Option String
  PyStatus_Exception : Status → Int
  Py_InitializeFromConfig : PyConfig Rest → Status
  Py_ExitStatusException : Status → Int

/-- How the process stops inside a call that does not return: it has exited
with a status, or its C stack was unwound with the runtime kept alive for the
host (`emscripten_exit_with_live_runtime`). -/
inductive End where
  | exited (code : Int)
  | live_runtime
  deriving DecidableEq

/-- The result of running a piece of the program: control comes back with a
value, or the process stopped inside a call. -/
inductive Result (α : Type) where
  | ret (a : α)
  | stop (e : End)
  deriving DecidableEq

/-- A run: the calls made, in order, and the result. -/
structure Run (Status Rest α : Type) where
  trace : List (Call Status Rest)
  result : Result α
  deriving DecidableEq

/-- Sequencing of runs: the continuation runs only if control came back. -/
def Run.bind {Status Rest α β : Type} (x : Run Status Rest α)
    (f : α → Run Status Rest β) : Run Status Rest β :=
  match x.result with
  | Result.ret a => ⟨x.trace ++ (f a).trace, (f a).result⟩
  | Result.stop e => ⟨x.trace, Result.stop e⟩

instance {Status Rest : Type} : Monad (Run Status Rest) where
  pure a := ⟨[], Result.ret a⟩
  bind := Run.bind

/-- The automatic variables of `initialize_python` at a program point. -/
structure Locals (Status Rest : Type) where
  success : Int
  status : Status
  config : PyConfig Rest
  deriving DecidableEq

/-- The content of the storage of `status` and `config` on entry to
`initialize_python` (`PyStatus status; PyConfig config;`, no initialiser). -/
structure Indeterminate (Status Rest : Type) where
  status : Status
  config : PyConfig Rest

/-- Where control goes after a block that contains `goto finally`. -/
inductive Branch (α : Type) where
  | next (a : α)
  | goto_finally (a : α)
  deriving DecidableEq

namespace Api

section

variable {Status Rest : Type}

/-- The call `PyConfig_InitPythonConfig(&config)`: the new content of `config`. -/
def PyConfig_InitPythonConfig (rt : Runtime Status Rest) : Run Status Rest (PyConfig Rest) :=
  ⟨[Call.PyConfig_InitPythonConfig], Result.ret rt.PyConfig_InitPythonConfig⟩

/-- The call `PyConfig_SetBytesString(&config, &config.home, str)`: the
status, and `config` with the new content of `home`. -/
def PyConfig_SetBytesString (rt : Runtime Status Rest) (config : PyConfig Rest) (str : String) :
    Run Status Rest (Status × PyConfig Rest) :=
  ⟨[Call.PyConfig_SetBytesString config str],
   Result.ret ((rt.PyConfig_SetBytesString config str).1,
     { config with home := (rt.PyConfig_SetBytesString config str).2 })⟩

/-- The call `PyStatus_Exception(status)`. -/
def PyStatus_Exception (rt : Runtime Status Rest) (status : Status) : Run Status Rest Int :=
  ⟨[Call.PyStatus_Exception status], Result.ret (rt.PyStatus_Exception status)⟩

/-- The call `Py_InitializeFromConfig(&config)`. -/
def Py_InitializeFromConfig (rt : Runtime Status Rest) (config : PyConfig Rest) :
    Run Status Rest Status :=
  ⟨[Call.Py_InitializeFromConfig config], Result.ret (rt.Py_InitializeFromConfig config)⟩

/-- The call `PyConfig_Clear(&config)`.  Nothing reads `config` afterwards, so
only the call is recorded. -/
def PyConfig_Clear (config : PyConfig Rest) : Run Status Rest Unit :=
  ⟨[Call.PyConfig_Clear config], Result.ret ()⟩

/-- The call `Py_ExitStatusException(status)`, declared without return in
`Python.h` (the source, line 31: "This will exit()"): control does not come
back. -/
def Py_ExitStatusException (rt : Runtime Status Rest) (status : Status) : Run Status Rest Unit :=
  ⟨[Call.Py_ExitStatusException status], Result.stop (End.exited (rt.Py_ExitStatusException status))⟩

/-- The call `emscripten_exit_with_live_runtime()`, declared `noreturn` in
`emscripten.h`: the C stack is unwound and control does not come back, so the
`return 0` that follows it in `main` is never run. -/
def emscripten_exit_with_live_runtime : Run Status Rest Unit :=
  ⟨[Call.emscripten_exit_with_live_runtime], Result.stop End.live_runtime⟩

end

end Api

/-! ## The program -/

section Program

variable {Status Rest : Type}

/-- The macro `FAIL_IF_STATUS_EXCEPTION(status)` (lines 7-10):
`if (PyStatus_Exception(status)) { goto finally; }`.  The value is `true` when
the jump is taken. -/
def FAIL_IF_STATUS_EXCEPTION (rt : Runtime Status Rest) (status : Status) : Run Status Rest Bool := do
  let r ← Api.PyStatus_Exception rt status
  return r != 0

/-- Lines 17-23 of `initialize_python`: the declarations and the construction
of the configuration, with the first check. -/
def construct (rt : Runtime Status Rest) (stack : Indeterminate Status Rest) :
    Run Status Rest (Branch (Locals Status Rest)) := do
  let L : Locals Status Rest := ⟨0, stack.status, stack.config⟩          -- 17-19
  let config ← Api.PyConfig_InitPythonConfig rt                           -- 20
  let L := { L with config := config }
  let (status, config) ← Api.PyConfig_SetBytesString rt L.config "/"      -- 21
  let L := { L with status := status, config := config }
  if ← FAIL_IF_STATUS_EXCEPTION rt L.status then                          -- 22
    return Branch.goto_finally L
  let L := { L with config := { L.config with write_bytecode := 0 } }     -- 23
  return Branch.next L

/-- Lines 24-27 of `initialize_python`: the initialisation attempt, the second
check, and `success = 1`.  The value is the locals at the label `finally`. -/
def attempt (rt : Runtime Status Rest) (L : Locals Status Rest) :
    Run Status Rest (Locals Status Rest) := do
  let status ← Api.Py_InitializeFromConfig rt L.config                    -- 24
  let L := { L with status := status }
  if ← FAIL_IF_STATUS_EXCEPTION rt L.status then                          -- 25
    return L
  let L := { L with success := 1 }                                        -- 27
  return L

/-- Lines 17-27: from entry to the label `finally`, reached by either `goto`
or by falling through. -/
def to_finally (rt : Runtime Status Rest) (stack : Indeterminate Status Rest) :
    Run Status Rest (Locals Status Rest) := do
  match ← construct rt stack with
  | Branch.goto_finally L => return L
  | Branch.next L => attempt rt L

/-- Lines 28-34: the code at the label `finally`. -/
def at_finally (rt : Runtime Status Rest) (L : Locals Status Rest) : Run Status Rest Unit := do
  Api.PyConfig_Clear L.config                                             -- 29
  if L.success = 0 then                                                   -- 30
    Api.Py_ExitStatusException rt L.status                                -- 32
  return ()

/-- The function `initialize_python` (lines 14-34). -/
def initialize_python (rt : Runtime Status Rest) (stack : Indeterminate Status Rest) :
    Run Status Rest Unit := do
  let L ← to_finally rt stack
  at_finally rt L

/-- The function `main` (lines 36-44). -/
def main (rt : Runtime Status Rest) (stack : Indeterminate Status Rest)
    (_argc : Int) (_argv : List String) : Run Status Rest Int := do
  initialize_python rt stack                                              -- 39
  Api.emscripten_exit_with_live_runtime                                   -- 40
  return 0                                                                -- 43

end Program

/-! ## The construction against a runtime that has state

One run of `main` makes each of the configuration calls once, so for one run
the answers of the runtime are a plain record.  Two constructions, one after
the other, meet the runtime in two different states: the first
`PyConfig_SetBytesString` pre-initialises the runtime and allocates the decoded
string.  Here the two calls of the construction are answered in a state `World`
and leave a new one. -/

section Stateful

variable {Status Rest World : Type}

/-- The calls of lines 20-22, answered by a runtime with state: each of
`PyConfig_InitPythonConfig` and `PyConfig_SetBytesString` is answered in the
state it finds and leaves a state behind.  `PyStatus_Exception` only inspects
the status value it is given. -/
structure Process (Status Rest World : Type) where
  PyConfig_InitPythonConfig : World → PyConfig Rest × World
  PyConfig_SetBytesString : World → PyConfig Rest → String → (Status × Option String) × World
  PyStatus_Exception : Status → Int

/-- What one construction leaves: the calls it made, where control goes with
which locals, and the state of the runtime. -/
structure Constructed (Status Rest World : Type) where
  calls : List (Call Status Rest)
  branch : Branch (Locals Status Rest)
  world : World

/-- Lines 17-23 of `initialize_python`, as `construct`, with the runtime in
state `w` on entry. -/
def construct_in (P : Process Status Rest World) (w : World)
    (stack : Indeterminate Status Rest) : Constructed Status Rest World :=
  let L : Locals Status Rest := ⟨0, stack.status, stack.config⟩          -- 17-19
  let init := P.PyConfig_InitPythonConfig w                               -- 20
  let L := { L with config := init.1 }
  let set := P.PyConfig_SetBytesString init.2 L.config "/"                -- 21
  let calls := [Call.PyConfig_InitPythonConfig, Call.PyConfig_SetBytesString L.config "/",
    Call.PyStatus_Exception set.1.1]
  let L := { L with status := set.1.1, config := { L.config with home := set.1.2 } }
  if P.PyStatus_Exception L.status != 0 then                              -- 22
    ⟨calls, Branch.goto_finally L, set.2⟩
  else
    ⟨calls, Branch.next { L with config := { L.config with write_bytecode := 0 } },  -- 23
      set.2⟩

/-- The configuration with which a construction entered in state `w` answers
line 20. -/
def Process.init_answer (P : Process Status Rest World) (w : World) : PyConfig Rest :=
  (P.PyConfig_InitPythonConfig w).1

/-- The status and the content of `home` with which a construction entered in
state `w` answers line 21. -/
def Process.home_answer (P : Process Status Rest World) (w : World) : Status × Option String :=
  (P.PyConfig_SetBytesString (P.PyConfig_InitPythonConfig w).2
    (P.PyConfig_InitPythonConfig w).1 "/").1

end Stateful

/-! ## A concrete runtime, for evaluating the program -/

namespace Sample

/-- The three kinds of status of the CPython convention. -/
inductive Kind where
  | ok
  | error
  | exit
  deriving DecidableEq

/-- A concrete status: its kind and the exit code it carries. -/
structure Status where
  kind : Kind
  exitcode : Int
  deriving DecidableEq

/-- A concrete runtime in the convention the CPython interface documents
(`PyStatus_Ok`, `PyStatus_Error`, `PyStatus_Exit(exitcode)`), given the
statuses that setting the home and the initialisation answer with.
`PyStatus_Exception` is non-zero unless the kind is `ok`;
`Py_ExitStatusException` calls `exit(exitcode)` for a status of kind `exit` and
exits with 1 for one of kind `error`.  `PyConfig_SetBytesString` writes the
string into the target field when it succeeds and leaves the field alone when
it fails.  The default configuration has `home = NULL` and
`write_bytecode = 1`, and one more field, here 7. -/
def runtime (set_home init : Status) : Runtime Status Nat where
  PyConfig_InitPythonConfig := ⟨none, 1, 7⟩
  PyConfig_SetBytesString := fun config str =>
    (set_home, if set_home.kind = Kind.ok then some str else config.home)
  PyStatus_Exception := fun s => if s.kind = Kind.ok then 0 else 1
  Py_InitializeFromConfig := fun _ => init
  Py_ExitStatusException := fun s => if s.kind = Kind.exit then s.exitcode else 1

/-- A status of kind `ok`. -/
def ok : Status := ⟨Kind.ok, 0⟩

/-- A status of kind `error`. -/
def error : Status := ⟨Kind.error, 0⟩

/-- A status of kind `exit` that carries the exit code 0. -/
def exit_zero : Status := ⟨Kind.exit, 0⟩

/-- Some content of the uninitialised storage. -/
def stack : Indeterminate Status Nat := ⟨⟨Kind.exit, 0⟩, ⟨some "junk", 5, 99⟩⟩

/-- Another content of the uninitialised storage. -/
def stack2 : Indeterminate Status Nat := ⟨⟨Kind.ok, 3⟩, ⟨none, 0, 0⟩⟩

end Sample

/-! ## Names for the values that occur on a run -/

section Values

variable {Status Rest : Type}

/-- The status returned by the call of line 21, `PyConfig_SetBytesString` on
the freshly initialised configuration with the string "/". -/
def home_status (rt : Runtime Status Rest) : Status :=
  (rt.PyConfig_SetBytesString rt.PyConfig_InitPythonConfig "/").1

/-- The configuration after line 21. -/
def config_after_home (rt : Runtime Status Rest) : PyConfig Rest :=
  { rt.PyConfig_InitPythonConfig with
    home := (rt.PyConfig_SetBytesString rt.PyConfig_InitPythonConfig "/").2 }

/-- The configuration after line 23. -/
def config_after_bytecode (rt : Runtime Status Rest) : PyConfig Rest :=
  { config_after_home rt with write_bytecode := 0 }

/-- The status returned by the call of line 24, when that line is reached. -/
def init_status (rt : Runtime Status Rest) : Status :=
  rt.Py_InitializeFromConfig (config_after_bytecode rt)

/-- The calls of lines 20-22. -/
def construct_calls (rt : Runtime Status Rest) : List (Call Status Rest) :=
  [Call.PyConfig_InitPythonConfig,
   Call.PyConfig_SetBytesString rt.PyConfig_InitPythonConfig "/",
   Call.PyStatus_Exception (home_status rt)]

/-- The calls of lines 24-25. -/
def attempt_calls (rt : Runtime Status Rest) : List (Call Status Rest) :=
  [Call.Py_InitializeFromConfig (config_after_bytecode rt),
   Call.PyStatus_Exception (init_status rt)]

/-- Whether a call releases the configuration. -/
def Call.is_release : Call Status Rest → Bool
  | Call.PyConfig_Clear _ => true
  | _ => false

/-- Whether a call is an initialisation attempt. -/
def Call.is_attempt : Call Status Rest → Bool
  | Call.Py_InitializeFromConfig _ => true
  | _ => false

/-- Whether a call ends the process with an exit status. -/
def Call.is_termination : Call Status Rest → Bool
  | Call.Py_ExitStatusException _ => true
  | _ => false

/-- Whether a call hands the live runtime over to the host. -/
def Call.is_handoff : Call Status Rest → Bool
  | Call.emscripten_exit_with_live_runtime => true
  | _ => false

end Values

/-! ## The three paths through the program -/

section Paths

variable {Status Rest : Type}

theorem fail_if_status_exception_eq (rt : Runtime Status Rest) (status : Status) :
    FAIL_IF_STATUS_EXCEPTION rt status
      = ⟨[Call.PyStatus_Exception status], Result.ret (rt.PyStatus_Exception status != 0)⟩ := rfl

theorem construct_of_exception (rt : Runtime Status Rest) (stack : Indeterminate Status Rest)
    (h : rt.PyStatus_Exception (home_status rt) ≠ 0) :
    construct rt stack
      = ⟨construct_calls rt,
         Result.ret (Branch.goto_finally ⟨0, home_status rt, config_after_home rt⟩)⟩ := by
  have h1 : (rt.PyStatus_Exception
      (rt.PyConfig_SetBytesString rt.PyConfig_InitPythonConfig "/").1 != 0) = true := by
    simpa [home_status] using h
  simp [construct, fail_if_status_exception_eq, Api.PyConfig_InitPythonConfig,
    Api.PyConfig_SetBytesString, bind, pure, Run.bind, h1, construct_calls, home_status,
    config_after_home]

theorem construct_of_no_exception (rt : Runtime Status Rest) (stack : Indeterminate Status Rest)
    (h : rt.PyStatus_Exception (home_status rt) = 0) :
    construct rt stack
      = ⟨construct_calls rt,
         Result.ret (Branch.next ⟨0, home_status rt, config_after_bytecode rt⟩)⟩ := by
  have h1 : (rt.PyStatus_Exception
      (rt.PyConfig_SetBytesString rt.PyConfig_InitPythonConfig "/").1 != 0) = false := by
    simpa [home_status] using h
  simp [construct, fail_if_status_exception_eq, Api.PyConfig_InitPythonConfig,
    Api.PyConfig_SetBytesString, bind, pure, Run.bind, h1, construct_calls, home_status,
    config_after_home, config_after_bytecode]

theorem attempt_of_exception (rt : Runtime Status Rest) (L : Locals Status Rest)
    (h : rt.PyStatus_Exception (rt.Py_InitializeFromConfig L.config) ≠ 0) :
    attempt rt L
      = ⟨[Call.Py_InitializeFromConfig L.config,
          Call.PyStatus_Exception (rt.Py_InitializeFromConfig L.config)],
         Result.ret { L with status := rt.Py_InitializeFromConfig L.config }⟩ := by
  have h1 : (rt.PyStatus_Exception (rt.Py_InitializeFromConfig L.config) != 0) = true := by
    simpa using h
  simp [attempt, fail_if_status_exception_eq, Api.Py_InitializeFromConfig, bind, pure,
    Run.bind, h1]

theorem attempt_of_no_exception (rt : Runtime Status Rest) (L : Locals Status Rest)
    (h : rt.PyStatus_Exception (rt.Py_InitializeFromConfig L.config) = 0) :
    attempt rt L
      = ⟨[Call.Py_InitializeFromConfig L.config,
          Call.PyStatus_Exception (rt.Py_InitializeFromConfig L.config)],
         Result.ret { L with status := rt.Py_InitializeFromConfig L.config, success := 1 }⟩ := by
  have h1 : (rt.PyStatus_Exception (rt.Py_InitializeFromConfig L.config) != 0) = false := by
    simpa using h
  simp [attempt, fail_if_status_exception_eq, Api.Py_InitializeFromConfig, bind, pure,
    Run.bind, h1]

/-- Path 1: setting the home fails. -/
theorem to_finally_home_fails (rt : Runtime Status Rest) (stack : Indeterminate Status Rest)
    (h : rt.PyStatus_Exception (home_status rt) ≠ 0) :
    to_finally rt stack
      = ⟨construct_calls rt, Result.ret ⟨0, home_status rt, config_after_home rt⟩⟩ := by
  simp [to_finally, construct_of_exception rt stack h, bind, pure, Run.bind]

/-- Path 2: setting the home succeeds, the initialisation fails. -/
theorem to_finally_init_fails (rt : Runtime Status Rest) (stack : Indeterminate Status Rest)
    (h1 : rt.PyStatus_Exception (home_status rt) = 0)
    (h2 : rt.PyStatus_Exception (init_status rt) ≠ 0) :
    to_finally rt stack
      = ⟨construct_calls rt ++ attempt_calls rt,
         Result.ret ⟨0, init_status rt, config_after_bytecode rt⟩⟩ := by
  have h3 := attempt_of_exception rt ⟨0, home_status rt, config_after_bytecode rt⟩ h2
  simp [to_finally, construct_of_no_exception rt stack h1, bind, Run.bind, h3, attempt_calls,
    init_status]

/-- Path 3: both calls succeed. -/
theorem to_finally_ready (rt : Runtime Status Rest) (stack : Indeterminate Status Rest)
    (h1 : rt.PyStatus_Exception (home_status rt) = 0)
    (h2 : rt.PyStatus_Exception (init_status rt) = 0) :
    to_finally rt stack
      = ⟨construct_calls rt ++ attempt_calls rt,
         Result.ret ⟨1, init_status rt, config_after_bytecode rt⟩⟩ := by
  have h3 := attempt_of_no_exception rt ⟨0, home_status rt, config_after_bytecode rt⟩ h2
  simp [to_finally, construct_of_no_exception rt stack h1, bind, Run.bind, h3, attempt_calls,
    init_status]

theorem at_finally_of_failure (rt : Runtime Status Rest) (L : Locals Status Rest)
    (h : L.success = 0) :
    at_finally rt L
      = ⟨[Call.PyConfig_Clear L.config, Call.Py_ExitStatusException L.status],
         Result.stop (End.exited (rt.Py_ExitStatusException L.status))⟩ := by
  simp [at_finally, Api.PyConfig_Clear, Api.Py_ExitStatusException, bind, Run.bind, h]

theorem at_finally_of_success (rt : Runtime Status Rest) (L : Locals Status Rest)
    (h : L.success ≠ 0) :
    at_finally rt L = ⟨[Call.PyConfig_Clear L.config], Result.ret ()⟩ := by
  simp [at_finally, Api.PyConfig_Clear, bind, pure, Run.bind, h]

/-- Path 1 through `initialize_python`. -/
theorem initialize_python_home_fails (rt : Runtime Status Rest)
    (stack : Indeterminate Status Rest)
    (h : rt.PyStatus_Exception (home_status rt) ≠ 0) :
    initialize_python rt stack
      = ⟨construct_calls rt ++ [Call.PyConfig_Clear (config_after_home rt),
            Call.Py_ExitStatusException (home_status rt)],
         Result.stop (End.exited (rt.Py_ExitStatusException (home_status rt)))⟩ := by
  have h3 := at_finally_of_failure rt ⟨0, home_status rt, config_after_home rt⟩ rfl
  simp [initialize_python, to_finally_home_fails rt stack h, bind, Run.bind, h3]

/-- Path 2 through `initialize_python`. -/
theorem initialize_python_init_fails (rt : Runtime Status Rest)
    (stack : Indeterminate Status Rest)
    (h1 : rt.PyStatus_Exception (home_status rt) = 0)
    (h2 : rt.PyStatus_Exception (init_status rt) ≠ 0) :
    initialize_python rt stack
      = ⟨construct_calls rt ++ attempt_calls rt ++
            [Call.PyConfig_Clear (config_after_bytecode rt),
             Call.Py_ExitStatusException (init_status rt)],
         Result.stop (End.exited (rt.Py_ExitStatusException (init_status rt)))⟩ := by
  have h3 := at_finally_of_failure rt ⟨0, init_status rt, config_after_bytecode rt⟩ rfl
  simp [initialize_python, to_finally_init_fails rt stack h1 h2, bind, Run.bind, h3]

/-- Path 3 through `initialize_python`. -/
theorem initialize_python_ready (rt : Runtime Status Rest)
    (stack : Indeterminate Status Rest)
    (h1 : rt.PyStatus_Exception (home_status rt) = 0)
    (h2 : rt.PyStatus_Exception (init_status rt) = 0) :
    initialize_python rt stack
      = ⟨construct_calls rt ++ attempt_calls rt ++
            [Call.PyConfig_Clear (config_after_bytecode rt)],
         Result.ret ()⟩ := by
  have h3 := at_finally_of_success rt ⟨1, init_status rt, config_after_bytecode rt⟩ (by simp)
  simp [initialize_python, to_finally_ready rt stack h1 h2, bind, Run.bind, h3]

/-- Path 1 through `main`. -/
theorem main_home_fails (rt : Runtime Status Rest) (stack : Indeterminate Status Rest)
    (argc : Int) (argv : List String)
    (h : rt.PyStatus_Exception (home_status rt) ≠ 0) :
    main rt stack argc argv
      = ⟨construct_calls rt ++ [Call.PyConfig_Clear (config_after_home rt),
            Call.Py_ExitStatusException (home_status rt)],
         Result.stop (End.exited (rt.Py_ExitStatusException (home_status rt)))⟩ := by
  simp [main, initialize_python_home_fails rt stack h, bind, Run.bind]

/-- Path 2 through `main`. -/
theorem main_init_fails (rt : Runtime Status Rest) (stack : Indeterminate Status Rest)
    (argc : Int) (argv : List String)
    (h1 : rt.PyStatus_Exception (home_status rt) = 0)
    (h2 : rt.PyStatus_Exception (init_status rt) ≠ 0) :
    main rt stack argc argv
      = ⟨construct_calls rt ++ attempt_calls rt ++
            [Call.PyConfig_Clear (config_after_bytecode rt),
             Call.Py_ExitStatusException (init_status rt)],
         Result.stop (End.exited (rt.Py_ExitStatusException (init_status rt)))⟩ := by
  simp [main, initialize_python_init_fails rt stack h1 h2, bind, Run.bind]

/-- Path 3 through `main`. -/
theorem main_ready (rt : Runtime Status Rest) (stack : Indeterminate Status Rest)
    (argc : Int) (argv : List String)
    (h1 : rt.PyStatus_Exception (home_status rt) = 0)
    (h2 : rt.PyStatus_Exception (init_status rt) = 0) :
    main rt stack argc argv
      = ⟨construct_calls rt ++ attempt_calls rt ++
            [Call.PyConfig_Clear (config_after_bytecode rt),
             Call.emscripten_exit_with_live_runtime],
         Result.stop End.live_runtime⟩ := by
  simp [main, initialize_python_ready rt stack h1 h2, bind, Run.bind,
    Api.emscripten_exit_with_live_runtime]

/-- None of the calls of lines 20-22 releases the configuration, ends the
process or hands over. -/
theorem construct_calls_quiet (rt : Runtime Status Rest) :
    ∀ c ∈ construct_calls rt, Call.is_release c = false ∧ Call.is_termination c = false ∧
      Call.is_handoff c = false := by
  intro c hc
  simp only [construct_calls, List.mem_cons, List.mem_singleton, List.not_mem_nil,
    or_false] at hc
  rcases hc with rfl | rfl | rfl <;> exact ⟨rfl, rfl, rfl⟩

/-- None of the calls of lines 24-25 releases the configuration, ends the
process or hands over. -/
theorem attempt_calls_quiet (rt : Runtime Status Rest) :
    ∀ c ∈ attempt_calls rt, Call.is_release c = false ∧ Call.is_termination c = false ∧
      Call.is_handoff c = false := by
  intro c hc
  simp only [attempt_calls, List.mem_cons, List.mem_singleton, List.not_mem_nil,
    or_false] at hc
  rcases hc with rfl | rfl <;> exact ⟨rfl, rfl, rfl⟩

/-- The calls of lines 20-25 together are quiet as well. -/
theorem construct_attempt_calls_quiet (rt : Runtime Status Rest) :
    ∀ c ∈ construct_calls rt ++ attempt_calls rt, Call.is_release c = false ∧
      Call.is_termination c = false ∧ Call.is_handoff c = false := by
  intro c hc
  rcases List.mem_append.1 hc with h | h
  · exact construct_calls_quiet rt c h
  · exact attempt_calls_quiet rt c h

end Paths

/-! ## Release of the configuration -/

section Claims

variable {Status Rest : Type}

/-- C1: on every run, whatever the two fallible calls answer, the trace of
`main` holds exactly one `PyConfig_Clear`; nothing before it is a release, a
`Py_ExitStatusException` or the handoff; and right after it either
`initialize_python` returns and `main` makes the handoff, or
`Py_ExitStatusException` ends the process. -/
theorem config_released_exactly_once (rt : Runtime Status Rest)
    (stack : Indeterminate Status Rest) (argc : Int) (argv : List String) :
    List.countP Call.is_release (main rt stack argc argv).trace = 1 ∧
    List.countP Call.is_release (initialize_python rt stack).trace = 1 ∧
    ∃ pre cfg,
      (∀ c ∈ pre, Call.is_release c = false ∧ Call.is_termination c = false ∧
        Call.is_handoff c = false) ∧
      (((initialize_python rt stack).trace = pre ++ [Call.PyConfig_Clear cfg] ∧
        (initialize_python rt stack).result = Result.ret () ∧
        (main rt stack argc argv).trace
          = pre ++ [Call.PyConfig_Clear cfg, Call.emscripten_exit_with_live_runtime]) ∨
       (∃ s,
        (initialize_python rt stack).trace
          = pre ++ [Call.PyConfig_Clear cfg, Call.Py_ExitStatusException s] ∧
        (initialize_python rt stack).result
          = Result.stop (End.exited (rt.Py_ExitStatusException s)) ∧
        (main rt stack argc argv).trace
          = pre ++ [Call.PyConfig_Clear cfg, Call.Py_ExitStatusException s])) := by
  by_cases h1 : rt.PyStatus_Exception (home_status rt) = 0
  · by_cases h2 : rt.PyStatus_Exception (init_status rt) = 0
    · rw [main_ready rt stack argc argv h1 h2, initialize_python_ready rt stack h1 h2]
      refine ⟨by simp [construct_calls, attempt_calls, Call.is_release],
        by simp [construct_calls, attempt_calls, Call.is_release],
        construct_calls rt ++ attempt_calls rt, config_after_bytecode rt, ?_, Or.inl ?_⟩
      · exact construct_attempt_calls_quiet rt
      · simp
    · rw [main_init_fails rt stack argc argv h1 h2, initialize_python_init_fails rt stack h1 h2]
      refine ⟨by simp [construct_calls, attempt_calls, Call.is_release],
        by simp [construct_calls, attempt_calls, Call.is_release],
        construct_calls rt ++ attempt_calls rt, config_after_bytecode rt, ?_,
        Or.inr ⟨init_status rt, ?_⟩⟩
      · exact construct_attempt_calls_quiet rt
      · simp
  · rw [main_home_fails rt stack argc argv h1, initialize_python_home_fails rt stack h1]
    refine ⟨by simp [construct_calls, Call.is_release],
      by simp [construct_calls, Call.is_release],
      construct_calls rt, config_after_home rt, ?_, Or.inr ⟨home_status rt, ?_⟩⟩
    · exact construct_calls_quiet rt
    · simp

/-! ## The failure of the initialisation attempt -/

/-- The attempt, when there is one, is made with the configuration of line 23. -/
theorem attempt_config_of_mem (rt : Runtime Status Rest) (stack : Indeterminate Status Rest)
    (argc : Int) (argv : List String) (cfg : PyConfig Rest)
    (hcall : Call.Py_InitializeFromConfig cfg ∈ (main rt stack argc argv).trace) :
    rt.PyStatus_Exception (home_status rt) = 0 ∧ cfg = config_after_bytecode rt := by
  by_cases h1 : rt.PyStatus_Exception (home_status rt) = 0
  · refine ⟨h1, ?_⟩
    by_cases h2 : rt.PyStatus_Exception (init_status rt) = 0
    · rw [main_ready rt stack argc argv h1 h2] at hcall
      simpa [construct_calls, attempt_calls] using hcall
    · rw [main_init_fails rt stack argc argv h1 h2] at hcall
      simpa [construct_calls, attempt_calls] using hcall
  · rw [main_home_fails rt stack argc argv h1] at hcall
    simp [construct_calls] at hcall

/-- C2: when `Py_InitializeFromConfig` is called on a run and the status it
returns is an exception, the last call of the run is `Py_ExitStatusException`
with exactly that status, nothing before it ends the process or hands over,
`initialize_python` does not return (the process stops inside it), and
`emscripten_exit_with_live_runtime` is not called. -/
theorem init_exception_is_reported (rt : Runtime Status Rest)
    (stack : Indeterminate Status Rest) (argc : Int) (argv : List String) (cfg : PyConfig Rest)
    (hcall : Call.Py_InitializeFromConfig cfg ∈ (main rt stack argc argv).trace)
    (hexc : rt.PyStatus_Exception (rt.Py_InitializeFromConfig cfg) ≠ 0) :
    (∃ pre, (main rt stack argc argv).trace
        = pre ++ [Call.Py_ExitStatusException (rt.Py_InitializeFromConfig cfg)] ∧
      ∀ c ∈ pre, Call.is_termination c = false ∧ Call.is_handoff c = false) ∧
    (main rt stack argc argv).result
      = Result.stop (End.exited (rt.Py_ExitStatusException (rt.Py_InitializeFromConfig cfg))) ∧
    (initialize_python rt stack).trace = (main rt stack argc argv).trace ∧
    (initialize_python rt stack).result
      = Result.stop (End.exited (rt.Py_ExitStatusException (rt.Py_InitializeFromConfig cfg))) ∧
    (initialize_python rt stack).result ≠ Result.ret () ∧
    Call.emscripten_exit_with_live_runtime ∉ (main rt stack argc argv).trace := by
  obtain ⟨h1, rfl⟩ := attempt_config_of_mem rt stack argc argv cfg hcall
  have h2 : rt.PyStatus_Exception (init_status rt) ≠ 0 := hexc
  rw [main_init_fails rt stack argc argv h1 h2, initialize_python_init_fails rt stack h1 h2]
  refine ⟨⟨construct_calls rt ++ attempt_calls rt ++
      [Call.PyConfig_Clear (config_after_bytecode rt)], by simp [init_status], ?_⟩,
    rfl, rfl, rfl, by simp, by simp [construct_calls, attempt_calls]⟩
  intro c hc
  rcases List.mem_append.1 hc with h | h
  · exact ⟨(construct_attempt_calls_quiet rt c h).2.1, (construct_attempt_calls_quiet rt c h).2.2⟩
  · rw [List.mem_singleton.1 h]
    exact ⟨rfl, rfl⟩

/-- C3: when `Py_InitializeFromConfig` is called on a run and the status it
returns is not an exception, `Py_ExitStatusException` is not called, the
handoff `emscripten_exit_with_live_runtime` is the last call of the run, comes
after the initialisation and is made exactly once, the run ends inside the
handoff, and `main` returns no value, in particular not through `return 0`. -/
theorem ready_hands_off_without_return (rt : Runtime Status Rest)
    (stack : Indeterminate Status Rest) (argc : Int) (argv : List String) (cfg : PyConfig Rest)
    (hcall : Call.Py_InitializeFromConfig cfg ∈ (main rt stack argc argv).trace)
    (hok : rt.PyStatus_Exception (rt.Py_InitializeFromConfig cfg) = 0) :
    (∀ s, Call.Py_ExitStatusException s ∉ (main rt stack argc argv).trace) ∧
    (∃ pre, (main rt stack argc argv).trace = pre ++ [Call.emscripten_exit_with_live_runtime] ∧
      Call.Py_InitializeFromConfig cfg ∈ pre ∧ ∀ c ∈ pre, Call.is_handoff c = false) ∧
    List.countP Call.is_handoff (main rt stack argc argv).trace = 1 ∧
    (initialize_python rt stack).result = Result.ret () ∧
    (main rt stack argc argv).result = Result.stop End.live_runtime ∧
    (∀ code, (main rt stack argc argv).result ≠ Result.ret code) := by
  obtain ⟨h1, rfl⟩ := attempt_config_of_mem rt stack argc argv cfg hcall
  have h2 : rt.PyStatus_Exception (init_status rt) = 0 := hok
  rw [main_ready rt stack argc argv h1 h2, initialize_python_ready rt stack h1 h2]
  refine ⟨by simp [construct_calls, attempt_calls],
    ⟨construct_calls rt ++ attempt_calls rt ++ [Call.PyConfig_Clear (config_after_bytecode rt)],
      by simp, by simp [attempt_calls], ?_⟩,
    by simp [construct_calls, attempt_calls, Call.is_handoff], rfl, rfl, by simp⟩
  intro c hc
  rcases List.mem_append.1 hc with h | h
  · exact (construct_attempt_calls_quiet rt c h).2.2
  · rw [List.mem_singleton.1 h]
    rfl

/-- C2, at a concrete run: setting the home succeeds, the initialisation
answers with an error status. -/
theorem init_exception_is_reported_witness :
    Call.Py_InitializeFromConfig ⟨some "/", 0, 7⟩
      ∈ (main (Sample.runtime Sample.ok Sample.error) Sample.stack 1 ["python"]).trace ∧
    (Sample.runtime Sample.ok Sample.error).PyStatus_Exception
      ((Sample.runtime Sample.ok Sample.error).Py_InitializeFromConfig ⟨some "/", 0, 7⟩) ≠ 0 ∧
    (main (Sample.runtime Sample.ok Sample.error) Sample.stack 1 ["python"]).result
      = Result.stop (End.exited 1) ∧
    Call.emscripten_exit_with_live_runtime
      ∉ (main (Sample.runtime Sample.ok Sample.error) Sample.stack 1 ["python"]).trace :=
  ⟨by decide, by decide,
   (init_exception_is_reported (Sample.runtime Sample.ok Sample.error) Sample.stack 1 ["python"]
      ⟨some "/", 0, 7⟩ (by decide) (by decide)).2.1,
   (init_exception_is_reported (Sample.runtime Sample.ok Sample.error) Sample.stack 1 ["python"]
      ⟨some "/", 0, 7⟩ (by decide) (by decide)).2.2.2.2.2⟩

/-- C3, at a concrete run: both calls succeed. -/
theorem ready_hands_off_without_return_witness :
    Call.Py_InitializeFromConfig ⟨some "/", 0, 7⟩
      ∈ (main (Sample.runtime Sample.ok Sample.ok) Sample.stack 1 ["python"]).trace ∧
    (Sample.runtime Sample.ok Sample.ok).PyStatus_Exception
      ((Sample.runtime Sample.ok Sample.ok).Py_InitializeFromConfig ⟨some "/", 0, 7⟩) = 0 ∧
    (main (Sample.runtime Sample.ok Sample.ok) Sample.stack 1 ["python"]).result
      = Result.stop End.live_runtime ∧
    (main (Sample.runtime Sample.ok Sample.ok) Sample.stack 1 ["python"]).result
      ≠ Result.ret 0 :=
  ⟨by decide, by decide,
   (ready_hands_off_without_return (Sample.runtime Sample.ok Sample.ok) Sample.stack 1
      ["python"] ⟨some "/", 0, 7⟩ (by decide) (by decide)).2.2.2.2.1,
   (ready_hands_off_without_return (Sample.runtime Sample.ok Sample.ok) Sample.stack 1
      ["python"] ⟨some "/", 0, 7⟩ (by decide) (by decide)).2.2.2.2.2 0⟩

/-! ## Construction of the configuration -/

/-- C4, as stated, fails: on the run where `PyConfig_SetBytesString` answers
with an error status, the check of line 22 jumps to `finally`,
`Py_InitializeFromConfig` is never called, and the process is ended by
`Py_ExitStatusException` with that status. -/
theorem construction_failure_ends_the_run :
    (construct (Sample.runtime Sample.error Sample.ok) Sample.stack).result
      = Result.ret (Branch.goto_finally ⟨0, Sample.error, ⟨none, 1, 7⟩⟩) ∧
    List.countP Call.is_attempt
      (main (Sample.runtime Sample.error Sample.ok) Sample.stack 0 []).trace = 0 ∧
    Call.Py_ExitStatusException Sample.error
      ∈ (main (Sample.runtime Sample.error Sample.ok) Sample.stack 0 []).trace ∧
    (main (Sample.runtime Sample.error Sample.ok) Sample.stack 0 []).result
      = Result.stop (End.exited 1) := by
  decide

/-- C4, amended: construction makes the calls of lines 20-22 and always gives
control back; it has one failure path, the check of line 22.  When the status
of `PyConfig_SetBytesString` is not an exception, control falls through to
line 24 and `Py_InitializeFromConfig` is called once; when it is an exception,
control jumps to `finally` with `success = 0`, `Py_InitializeFromConfig` is not
called, and the process is ended by `Py_ExitStatusException` with that
status. -/
theorem construction_fails_only_at_home (rt : Runtime Status Rest)
    (stack : Indeterminate Status Rest) (argc : Int) (argv : List String) :
    (construct rt stack).trace
      = [Call.PyConfig_InitPythonConfig,
         Call.PyConfig_SetBytesString rt.PyConfig_InitPythonConfig "/",
         Call.PyStatus_Exception (home_status rt)] ∧
    (rt.PyStatus_Exception (home_status rt) = 0 →
      (∃ L, (construct rt stack).result = Result.ret (Branch.next L) ∧
        Call.Py_InitializeFromConfig L.config ∈ (main rt stack argc argv).trace) ∧
      List.countP Call.is_attempt (main rt stack argc argv).trace = 1) ∧
    (rt.PyStatus_Exception (home_status rt) ≠ 0 →
      (∃ L, (construct rt stack).result = Result.ret (Branch.goto_finally L) ∧
        L.success = 0 ∧ L.status = home_status rt) ∧
      List.countP Call.is_attempt (main rt stack argc argv).trace = 0 ∧
      Call.Py_ExitStatusException (home_status rt) ∈ (main rt stack argc argv).trace ∧
      (main rt stack argc argv).result
        = Result.stop (End.exited (rt.Py_ExitStatusException (home_status rt)))) := by
  refine ⟨?_, ?_, ?_⟩
  · by_cases h1 : rt.PyStatus_Exception (home_status rt) = 0
    · rw [construct_of_no_exception rt stack h1]
      rfl
    · rw [construct_of_exception rt stack h1]
      rfl
  · intro h1
    rw [construct_of_no_exception rt stack h1]
    by_cases h2 : rt.PyStatus_Exception (init_status rt) = 0
    · rw [main_ready rt stack argc argv h1 h2]
      exact ⟨⟨_, rfl, by simp [attempt_calls]⟩,
        by simp [construct_calls, attempt_calls, Call.is_attempt]⟩
    · rw [main_init_fails rt stack argc argv h1 h2]
      exact ⟨⟨_, rfl, by simp [attempt_calls]⟩,
        by simp [construct_calls, attempt_calls, Call.is_attempt]⟩
  · intro h1
    rw [construct_of_exception rt stack h1, main_home_fails rt stack argc argv h1]
    exact ⟨⟨_, rfl, rfl, rfl⟩, by simp [construct_calls, Call.is_attempt], by simp, rfl⟩

/-- C4, amended, at two concrete runs: one where setting the home succeeds and
one where it fails. -/
theorem construction_fails_only_at_home_witness :
    List.countP Call.is_attempt
      (main (Sample.runtime Sample.ok Sample.ok) Sample.stack 2 ["python", "-h"]).trace = 1 ∧
    (main (Sample.runtime Sample.exit_zero Sample.ok) Sample.stack 2 ["python", "-h"]).result
      = Result.stop (End.exited 0) :=
  ⟨((construction_fails_only_at_home (Sample.runtime Sample.ok Sample.ok) Sample.stack 2
      ["python", "-h"]).2.1 (by decide)).2,
   ((construction_fails_only_at_home (Sample.runtime Sample.exit_zero Sample.ok) Sample.stack 2
      ["python", "-h"]).2.2 (by decide)).2.2.2⟩

/-- C5: on every run, a configuration handed to `Py_InitializeFromConfig` has
in `home` the content that `PyConfig_SetBytesString`, called on the freshly
initialised configuration with the string "/", left there; it has
`write_bytecode = 0`; and its other fields are those of
`PyConfig_InitPythonConfig`.  The only `PyConfig_SetBytesString` call of the
run is that one, and it comes before the attempt. -/
theorem attempt_config_is_minimal (rt : Runtime Status Rest)
    (stack : Indeterminate Status Rest) (argc : Int) (argv : List String) (cfg : PyConfig Rest)
    (hcall : Call.Py_InitializeFromConfig cfg ∈ (main rt stack argc argv).trace) :
    cfg.home = (rt.PyConfig_SetBytesString rt.PyConfig_InitPythonConfig "/").2 ∧
    cfg.write_bytecode = 0 ∧
    cfg.rest = rt.PyConfig_InitPythonConfig.rest ∧
    (∃ post, (main rt stack argc argv).trace
      = [Call.PyConfig_InitPythonConfig,
         Call.PyConfig_SetBytesString rt.PyConfig_InitPythonConfig "/",
         Call.PyStatus_Exception (home_status rt),
         Call.Py_InitializeFromConfig cfg] ++ post ∧
      ∀ c ∈ post, ∀ config str, c ≠ Call.PyConfig_SetBytesString config str) := by
  obtain ⟨h1, rfl⟩ := attempt_config_of_mem rt stack argc argv cfg hcall
  refine ⟨rfl, rfl, rfl, ?_⟩
  by_cases h2 : rt.PyStatus_Exception (init_status rt) = 0
  · rw [main_ready rt stack argc argv h1 h2]
    refine ⟨_, by simp [construct_calls, attempt_calls]; rfl, ?_⟩
    intro c hc config str
    simp only [List.mem_cons, List.mem_singleton, List.not_mem_nil, or_false] at hc
    rcases hc with rfl | rfl | rfl <;> simp
  · rw [main_init_fails rt stack argc argv h1 h2]
    refine ⟨_, by simp [construct_calls, attempt_calls]; rfl, ?_⟩
    intro c hc config str
    simp only [List.mem_cons, List.mem_singleton, List.not_mem_nil, or_false] at hc
    rcases hc with rfl | rfl | rfl <;> simp

/-- C5, at a concrete run: the default configuration has `write_bytecode = 1`
and 7 in its other field; the configuration of the attempt has home "/",
`write_bytecode = 0` and still 7. -/
theorem attempt_config_is_minimal_witness :
    Call.Py_InitializeFromConfig ⟨some "/", 0, 7⟩
      ∈ (main (Sample.runtime Sample.ok Sample.error) Sample.stack2 0 []).trace ∧
    (⟨some "/", 0, 7⟩ : PyConfig Nat).rest
      = (Sample.runtime Sample.ok Sample.error).PyConfig_InitPythonConfig.rest :=
  ⟨by decide,
   (attempt_config_is_minimal (Sample.runtime Sample.ok Sample.error) Sample.stack2 0 []
      ⟨some "/", 0, 7⟩ (by decide)).2.2.1⟩

/-! ## The exit status on the failure path -/

/-- C6, as stated, fails: in a runtime of the CPython convention where the
initialisation answers with a status of kind `exit` that carries the code 0,
the status is an exception, it is handed to `Py_ExitStatusException`, and the
process exits with status 0. -/
theorem failure_path_can_exit_zero :
    (Sample.runtime Sample.ok Sample.exit_zero).PyStatus_Exception Sample.exit_zero ≠ 0 ∧
    Call.Py_ExitStatusException Sample.exit_zero
      ∈ (main (Sample.runtime Sample.ok Sample.exit_zero) Sample.stack 1 ["python"]).trace ∧
    (main (Sample.runtime Sample.ok Sample.exit_zero) Sample.stack 1 ["python"]).result
      = Result.stop (End.exited 0) := by
  decide

/-- C6, amended: on every run on which `Py_ExitStatusException` is reached with
a status, that status is an exception and the process exits with the status
the runtime's `Py_ExitStatusException` gives it; the program adds nothing of
its own, so the exit status is non-zero exactly when the runtime's is. -/
theorem failure_exit_status_is_the_runtimes (rt : Runtime Status Rest)
    (stack : Indeterminate Status Rest) (argc : Int) (argv : List String) (s : Status)
    (hcall : Call.Py_ExitStatusException s ∈ (main rt stack argc argv).trace) :
    rt.PyStatus_Exception s ≠ 0 ∧
    (main rt stack argc argv).result = Result.stop (End.exited (rt.Py_ExitStatusException s)) ∧
    ((∃ code, code ≠ 0 ∧ (main rt stack argc argv).result = Result.stop (End.exited code))
      ↔ rt.Py_ExitStatusException s ≠ 0) := by
  have key : rt.PyStatus_Exception s ≠ 0 ∧
      (main rt stack argc argv).result
        = Result.stop (End.exited (rt.Py_ExitStatusException s)) := by
    by_cases h1 : rt.PyStatus_Exception (home_status rt) = 0
    · by_cases h2 : rt.PyStatus_Exception (init_status rt) = 0
      · rw [main_ready rt stack argc argv h1 h2] at hcall
        simp [construct_calls, attempt_calls] at hcall
      · rw [main_init_fails rt stack argc argv h1 h2] at hcall ⊢
        have hs : s = init_status rt := by
          simpa [construct_calls, attempt_calls] using hcall
        subst hs
        exact ⟨h2, rfl⟩
    · rw [main_home_fails rt stack argc argv h1] at hcall ⊢
      have hs : s = home_status rt := by
        simpa [construct_calls] using hcall
      subst hs
      exact ⟨h1, rfl⟩
  refine ⟨key.1, key.2, ?_⟩
  rw [key.2]
  constructor
  · rintro ⟨code, hcode, heq⟩
    have hc : rt.Py_ExitStatusException s = code := by
      simpa using heq
    rw [hc]
    exact hcode
  · intro h
    exact ⟨_, h, rfl⟩

/-- C6, amended, at a concrete run: an error status, which the sample runtime
turns into the exit status 1. -/
theorem failure_exit_status_is_the_runtimes_witness :
    Call.Py_ExitStatusException Sample.error
      ∈ (main (Sample.runtime Sample.ok Sample.error) Sample.stack 1 ["python"]).trace ∧
    (main (Sample.runtime Sample.ok Sample.error) Sample.stack 1 ["python"]).result
      = Result.stop (End.exited 1) :=
  ⟨by decide,
   (failure_exit_status_is_the_runtimes (Sample.runtime Sample.ok Sample.error) Sample.stack 1
      ["python"] Sample.error (by decide)).2.1⟩

/-! ## Repeating the construction -/

/-- The construction against a runtime with state makes the calls and reaches
the locals of `construct` for any plain runtime that gives the same answers. -/
theorem construct_in_agrees {World : Type} (P : Process Status Rest World) (w : World)
    (rt : Runtime Status Rest) (stack : Indeterminate Status Rest)
    (hinit : rt.PyConfig_InitPythonConfig = P.init_answer w)
    (hhome : rt.PyConfig_SetBytesString (P.init_answer w) "/" = P.home_answer w)
    (hexc : rt.PyStatus_Exception = P.PyStatus_Exception) :
    construct rt stack
      = ⟨(construct_in P w stack).calls, Result.ret (construct_in P w stack).branch⟩ := by
  by_cases h1 : rt.PyStatus_Exception (home_status rt) = 0
  · have h2 : P.PyStatus_Exception (P.home_answer w).1 = 0 := by
      rw [← hexc, ← hhome, ← hinit]
      exact h1
    have h3 : (P.PyStatus_Exception (P.PyConfig_SetBytesString (P.PyConfig_InitPythonConfig w).2
        (P.PyConfig_InitPythonConfig w).1 "/").1.1 != 0) = false := by
      simpa [Process.home_answer] using h2
    have hh : rt.PyConfig_SetBytesString (P.PyConfig_InitPythonConfig w).1 "/"
        = (P.PyConfig_SetBytesString (P.PyConfig_InitPythonConfig w).2
            (P.PyConfig_InitPythonConfig w).1 "/").1 := hhome
    rw [construct_of_no_exception rt stack h1]
    simp [construct_in, h3, construct_calls, home_status, config_after_bytecode,
      config_after_home, hinit, hh, Process.init_answer]
  · have h2 : P.PyStatus_Exception (P.home_answer w).1 ≠ 0 := by
      rw [← hexc, ← hhome, ← hinit]
      exact h1
    have h3 : (P.PyStatus_Exception (P.PyConfig_SetBytesString (P.PyConfig_InitPythonConfig w).2
        (P.PyConfig_InitPythonConfig w).1 "/").1.1 != 0) = true := by
      simpa [Process.home_answer] using h2
    have hh : rt.PyConfig_SetBytesString (P.PyConfig_InitPythonConfig w).1 "/"
        = (P.PyConfig_SetBytesString (P.PyConfig_InitPythonConfig w).2
            (P.PyConfig_InitPythonConfig w).1 "/").1 := hhome
    rw [construct_of_exception rt stack h1]
    simp [construct_in, h3, construct_calls, home_status, config_after_home, hinit, hh,
      Process.init_answer]

/-- C8, as stated, fails: on the run where `PyConfig_SetBytesString` answers
with an error status the number of `Py_InitializeFromConfig` calls is 0, not
1. -/
theorem attempt_count_can_be_zero :
    List.countP Call.is_attempt
      (main (Sample.runtime Sample.error Sample.error) Sample.stack2 1 ["python"]).trace ≠ 1 := by
  decide

/-- C8, amended: on every run `Py_InitializeFromConfig` is called at most once,
and exactly once precisely when the status of `PyConfig_SetBytesString` is not
an exception; exactly one terminal call is made, either
`Py_ExitStatusException` or `emscripten_exit_with_live_runtime`, it is the last
call of the run, and the run ends inside it. -/
theorem one_attempt_at_most_one_outcome (rt : Runtime Status Rest)
    (stack : Indeterminate Status Rest) (argc : Int) (argv : List String) :
    List.countP Call.is_attempt (main rt stack argc argv).trace ≤ 1 ∧
    (List.countP Call.is_attempt (main rt stack argc argv).trace = 1
      ↔ rt.PyStatus_Exception (home_status rt) = 0) ∧
    List.countP Call.is_termination (main rt stack argc argv).trace
      + List.countP Call.is_handoff (main rt stack argc argv).trace = 1 ∧
    (∃ pre last, (main rt stack argc argv).trace = pre ++ [last] ∧
      (∀ c ∈ pre, Call.is_termination c = false ∧ Call.is_handoff c = false) ∧
      ((∃ s, last = Call.Py_ExitStatusException s ∧
          (main rt stack argc argv).result
            = Result.stop (End.exited (rt.Py_ExitStatusException s))) ∨
       (last = Call.emscripten_exit_with_live_runtime ∧
          (main rt stack argc argv).result = Result.stop End.live_runtime))) := by
  by_cases h1 : rt.PyStatus_Exception (home_status rt) = 0
  · by_cases h2 : rt.PyStatus_Exception (init_status rt) = 0
    · rw [main_ready rt stack argc argv h1 h2]
      refine ⟨by simp [construct_calls, attempt_calls, Call.is_attempt],
        by simp [construct_calls, attempt_calls, Call.is_attempt, h1],
        by simp [construct_calls, attempt_calls, Call.is_termination, Call.is_handoff],
        construct_calls rt ++ attempt_calls rt ++ [Call.PyConfig_Clear (config_after_bytecode rt)],
        Call.emscripten_exit_with_live_runtime, by simp, ?_, Or.inr ⟨rfl, rfl⟩⟩
      intro c hc
      rcases List.mem_append.1 hc with h | h
      · exact (construct_attempt_calls_quiet rt c h).2
      · rw [List.mem_singleton.1 h]
        exact ⟨rfl, rfl⟩
    · rw [main_init_fails rt stack argc argv h1 h2]
      refine ⟨by simp [construct_calls, attempt_calls, Call.is_attempt],
        by simp [construct_calls, attempt_calls, Call.is_attempt, h1],
        by simp [construct_calls, attempt_calls, Call.is_termination, Call.is_handoff],
        construct_calls rt ++ attempt_calls rt ++ [Call.PyConfig_Clear (config_after_bytecode rt)],
        Call.Py_ExitStatusException (init_status rt), by simp, ?_, Or.inl ⟨_, rfl, rfl⟩⟩
      intro c hc
      rcases List.mem_append.1 hc with h | h
      · exact (construct_attempt_calls_quiet rt c h).2
      · rw [List.mem_singleton.1 h]
        exact ⟨rfl, rfl⟩
  · rw [main_home_fails rt stack argc argv h1]
    refine ⟨by simp [construct_calls, Call.is_attempt],
      by simp [construct_calls, Call.is_attempt, h1],
      by simp [construct_calls, Call.is_termination, Call.is_handoff],
      construct_calls rt ++ [Call.PyConfig_Clear (config_after_home rt)],
      Call.Py_ExitStatusException (home_status rt), by simp, ?_, Or.inl ⟨_, rfl, rfl⟩⟩
    intro c hc
    rcases List.mem_append.1 hc with h | h
    · exact (construct_calls_quiet rt c h).2
    · rw [List.mem_singleton.1 h]
      exact ⟨rfl, rfl⟩

/-! ## The arguments of `main` -/

/-- C9: for the same runtime, `main` makes the same calls with the same
arguments and ends the same way whatever `argc` and `argv` are. -/
theorem arguments_are_ignored (rt : Runtime Status Rest) (stack : Indeterminate Status Rest)
    (argc argc2 : Int) (argv argv2 : List String) :
    main rt stack argc argv = main rt stack argc2 argv2 ∧
    (main rt stack argc argv).trace = (main rt stack argc2 argv2).trace ∧
    (main rt stack argc argv).result = (main rt stack argc2 argv2).result := by
  have h : main rt stack argc argv = main rt stack argc2 argv2 := by
    unfold main
    rfl
  exact ⟨h, congrArg Run.trace h, congrArg Run.result h⟩

/-! ## The status that is reported -/

/-- C10: control always reaches the label `finally`, with `success` 0 or 1;
`success` is 1 there exactly when neither the status of
`PyConfig_SetBytesString` nor that of `Py_InitializeFromConfig` is an
exception, and when it is 0 the local `status` holds an exception.  If setting
the home fails, `Py_InitializeFromConfig` is not called and the one status
reported is that of `PyConfig_SetBytesString`; if it succeeds and the
initialisation fails, the one status reported is that of
`Py_InitializeFromConfig`.  Every status handed to `Py_ExitStatusException` is
an exception and is the answer of a call made earlier on the run, and the
whole run is the same whatever the storage of `status` and `config` held on
entry. -/
theorem reported_status_was_assigned (rt : Runtime Status Rest)
    (stack : Indeterminate Status Rest) (argc : Int) (argv : List String) :
    (∃ L, (to_finally rt stack).result = Result.ret L ∧
      (L.success = 0 ∨ L.success = 1) ∧
      (L.success = 1 ↔ rt.PyStatus_Exception (home_status rt) = 0 ∧
        rt.PyStatus_Exception (init_status rt) = 0) ∧
      (L.success = 0 → rt.PyStatus_Exception L.status ≠ 0)) ∧
    (rt.PyStatus_Exception (home_status rt) ≠ 0 →
      List.countP Call.is_attempt (main rt stack argc argv).trace = 0 ∧
      Call.Py_ExitStatusException (rt.PyConfig_SetBytesString rt.PyConfig_InitPythonConfig "/").1
        ∈ (main rt stack argc argv).trace ∧
      ∀ s, Call.Py_ExitStatusException s ∈ (main rt stack argc argv).trace →
        s = (rt.PyConfig_SetBytesString rt.PyConfig_InitPythonConfig "/").1) ∧
    (rt.PyStatus_Exception (home_status rt) = 0 →
      rt.PyStatus_Exception (init_status rt) ≠ 0 →
      Call.Py_ExitStatusException (init_status rt) ∈ (main rt stack argc argv).trace ∧
      ∀ s, Call.Py_ExitStatusException s ∈ (main rt stack argc argv).trace →
        s = init_status rt) ∧
    (∀ s, Call.Py_ExitStatusException s ∈ (main rt stack argc argv).trace →
      rt.PyStatus_Exception s ≠ 0 ∧
      ∃ pre post, (main rt stack argc argv).trace
          = pre ++ Call.Py_ExitStatusException s :: post ∧
        ((s = (rt.PyConfig_SetBytesString rt.PyConfig_InitPythonConfig "/").1 ∧
            Call.PyConfig_SetBytesString rt.PyConfig_InitPythonConfig "/" ∈ pre) ∨
         (∃ cfg, s = rt.Py_InitializeFromConfig cfg ∧
            Call.Py_InitializeFromConfig cfg ∈ pre))) ∧
    (∀ stack2, main rt stack2 argc argv = main rt stack argc argv) := by
  by_cases h1 : rt.PyStatus_Exception (home_status rt) = 0
  · by_cases h2 : rt.PyStatus_Exception (init_status rt) = 0
    · refine ⟨⟨_, congrArg Run.result (to_finally_ready rt stack h1 h2), Or.inr rfl,
          by simp [h1, h2], by simp⟩, fun h => absurd h1 h, fun _ h => absurd h2 h, ?_, ?_⟩
      · intro s hs
        rw [main_ready rt stack argc argv h1 h2] at hs
        simp [construct_calls, attempt_calls] at hs
      · intro stack2
        rw [main_ready rt stack argc argv h1 h2, main_ready rt stack2 argc argv h1 h2]
    · refine ⟨⟨_, congrArg Run.result (to_finally_init_fails rt stack h1 h2), Or.inl rfl,
          by simp [h2], fun _ => h2⟩, fun h => absurd h1 h, fun _ _ => ?_, ?_, ?_⟩
      · rw [main_init_fails rt stack argc argv h1 h2]
        refine ⟨by simp, ?_⟩
        intro s hs
        simpa [construct_calls, attempt_calls] using hs
      · intro s hs
        rw [main_init_fails rt stack argc argv h1 h2] at hs ⊢
        have e : s = init_status rt := by
          simpa [construct_calls, attempt_calls] using hs
        subst e
        refine ⟨h2, construct_calls rt ++ attempt_calls rt ++
          [Call.PyConfig_Clear (config_after_bytecode rt)], [], by simp,
          Or.inr ⟨config_after_bytecode rt, rfl, by simp [attempt_calls]⟩⟩
      · intro stack2
        rw [main_init_fails rt stack argc argv h1 h2, main_init_fails rt stack2 argc argv h1 h2]
  · refine ⟨⟨_, congrArg Run.result (to_finally_home_fails rt stack h1), Or.inl rfl,
        by simp [h1], fun _ => h1⟩, fun _ => ?_, fun h => absurd h h1, ?_, ?_⟩
    · rw [main_home_fails rt stack argc argv h1]
      refine ⟨by simp [construct_calls, Call.is_attempt], by simp [home_status], ?_⟩
      intro s hs
      simpa [construct_calls, home_status] using hs
    · intro s hs
      rw [main_home_fails rt stack argc argv h1] at hs ⊢
      have e : s = home_status rt := by
        simpa [construct_calls] using hs
      subst e
      refine ⟨h1, construct_calls rt ++ [Call.PyConfig_Clear (config_after_home rt)], [],
        by simp, Or.inl ⟨rfl, by simp [construct_calls]⟩⟩
    · intro stack2
      rw [main_home_fails rt stack argc argv h1, main_home_fails rt stack2 argc argv h1]

/-- C10, at two concrete runs: setting the home fails and the status of that
call is the one reported; setting it succeeds, the initialisation fails, and
the status of the initialisation is the one reported. -/
theorem reported_status_was_assigned_witness :
    Call.Py_ExitStatusException Sample.exit_zero
      ∈ (main (Sample.runtime Sample.exit_zero Sample.error) Sample.stack2 0 []).trace ∧
    Call.Py_ExitStatusException Sample.error
      ∈ (main (Sample.runtime Sample.ok Sample.error) Sample.stack2 0 []).trace :=
  ⟨((reported_status_was_assigned (Sample.runtime Sample.exit_zero Sample.error) Sample.stack2
      0 []).2.1 (by decide)).2.1,
   ((reported_status_was_assigned (Sample.runtime Sample.ok Sample.error) Sample.stack2
      0 []).2.2.1 (by decide) (by decide)).1⟩

end Claims

end Interpreter
